import Mathlib

/-!
Shallow embedding of `src/main.py` (FireCrawlPy): a CLI program that issues
one HTTP GET to a crawling API, renders the JSON response as Markdown and
writes it to `Output/<domain>/crawling_results.md`.

The embedding models:
* the query-parameter dictionary built by `crawl_site` (main.py lines 28-33);
* the error handling of `crawl_site` (`response.raise_for_status()` plus
  `except requests.RequestException: sys.exit(1)`, lines 35-42), with the
  network modelled as an explicit `HttpOutcome` input;
* the pure Markdown-building part of `save_as_markdown` (lines 53-69) over
  responses modelled as association lists from field names to string lists
  (the spec data model: each of `links`/`texts`/`images` is an optional
  sequence of strings);
* the overwriting file write `output_file.write_text(...)` (lines 71-72);
* `urllib.parse.urlparse(...).netloc` as used by `main` (line 107) to derive
  the output directory `Output/<domain>` (line 108).
-/

namespace FireCrawl

/-- A value of the query-parameter dict in `crawl_site`: Python `str` or `int`. -/
inductive ParamValue where
  | pstr : String → ParamValue
  | pint : Int → ParamValue
deriving DecidableEq, Repr

/-- The query-parameter dict built by `crawl_site` (main.py lines 28-33):
`{"url": url, "depth": depth, "dataType": data_type, "limit": request_limit}`,
in Python dict insertion order. -/
def crawl_params (url : String) (depth : Int) (data_type : String)
    (request_limit : Int) : List (String × ParamValue) :=
  [("url", ParamValue.pstr url),
   ("depth", ParamValue.pint depth),
   ("dataType", ParamValue.pstr data_type),
   ("limit", ParamValue.pint request_limit)]

/-- The CLI arguments accepted by `main` (main.py lines 80-102). -/
structure Args where
  url : String
  depth : Int
  dataType : String
  requestLimit : Int
deriving DecidableEq, Repr

/-- The query parameters of the outbound request made on behalf of `args`:
`main` (line 112) calls `crawl_site(args.url, args.depth, args.dataType,
args.requestLimit)`, which sends `crawl_params`. -/
def main_request (a : Args) : List (String × ParamValue) :=
  crawl_params a.url a.depth a.dataType a.requestLimit

/-- A crawl response: an association list from JSON field names to lists of
strings.  This follows the spec's data model (each of the optional fields
`links`, `texts`, `images` is a sequence of strings); absent keys model
absent JSON fields. -/
def CrawlData := List (String × List String)

/-- Python `data.get(key, [])` (`dict.get` with default `[]`,
main.py lines 58, 63, 68). -/
def getField (d : CrawlData) (k : String) : List String :=
  match List.lookup k d with
  | some v => v
  | none => []

/-- Outcome of the single `requests.get` call, as seen by `crawl_site`:
either a transport-level error (connection failure, timeout, ...) or an
HTTP response with a status code and a body that parses as JSON (`some`)
or does not (`none`). -/
inductive HttpOutcome where
  | transportError : HttpOutcome
  | response : Nat → Option CrawlData → HttpOutcome

/-- Model of `Response.raise_for_status()`: it raises `HTTPError` exactly
for client (400-499) and server (500-599) error status codes. -/
def raise_for_status (status : Nat) : Bool :=
  decide (400 ≤ status ∧ status < 600)

/-- Embeds `crawl_site` (main.py lines 35-42): on a successful response return the
decoded JSON body; on `requests.RequestException` (transport error,
`raise_for_status` error, or JSON decode failure) the program does
`sys.exit(1)`, modelled as `Except.error 1` carrying the exit status. -/
def crawl_site (o : HttpOutcome) : Except Nat CrawlData :=
  match o with
  | HttpOutcome.transportError => Except.error 1
  | HttpOutcome.response status body =>
      if raise_for_status status then Except.error 1
      else
        match body with
        | some d => Except.ok d
        | none => Except.error 1

/-- The request failed in the sense of main.py lines 40-42: a transport
error (including timeouts) or a non-success HTTP status. -/
def requestFails (o : HttpOutcome) : Prop :=
  o = HttpOutcome.transportError ∨
    ∃ status body, o = HttpOutcome.response status body ∧
      400 ≤ status ∧ status < 600

/-- The Markdown content built by `save_as_markdown` (main.py lines 53-69),
before it is written to disk.  Each `md_content += ...` of the Python loops
is a `List.foldl` step. -/
def save_as_markdown (data : CrawlData) (data_type : String) : String :=
  let md0 : String := "# Resultado do Crawling\n\n"
  let md1 : String := md0 ++ ("## Tipo de dados: " ++ data_type ++ "\n\n")
  if data_type = "links" then
    (getField data "links").foldl
      (fun md link => md ++ ("- [" ++ link ++ "](" ++ link ++ ")\n"))
      (md1 ++ "### Links encontrados:\n\n")
  else if data_type = "text" then
    (getField data "texts").foldl
      (fun md text => md ++ (text ++ "\n\n---\n\n"))
      (md1 ++ "### Textos extraídos:\n\n")
  else if data_type = "images" then
    (getField data "images").foldl
      (fun md image => md ++ ("![" ++ image ++ "](" ++ image ++ ")\n\n"))
      (md1 ++ "### Imagens encontradas:\n\n")
  else md1

/-- The fixed title heading and data-type sub-heading that `save_as_markdown`
always writes first (main.py lines 53-54). -/
def md_header (data_type : String) : String :=
  "# Resultado do Crawling\n\n" ++ ("## Tipo de dados: " ++ data_type ++ "\n\n")

/-- The per-data-type section heading (main.py lines 57, 62, 67). -/
def section_heading (data_type : String) : String :=
  if data_type = "links" then "### Links encontrados:\n\n"
  else if data_type = "text" then "### Textos extraídos:\n\n"
  else "### Imagens encontradas:\n\n"

/-- Model of `Path.write_text` (main.py line 72): replaces whatever the file held
before (`prior`, `none` if the file did not exist) with the new content. -/
def write_text (_prior : Option String) (content : String) : Option String :=
  some content

/-- The JSON field read by `save_as_markdown` for a given data-type
selector (main.py lines 58, 63, 68). -/
def fieldFor (data_type : String) : String :=
  if data_type = "links" then "links"
  else if data_type = "text" then "texts"
  else "images"

/-- One run of `main` after argument parsing (main.py lines 111-115), with
the network modelled by `o`: returns the process exit status and the
content written to `crawling_results.md` (`none` when the program exited
before reaching `save_as_markdown`). -/
def run_main (a : Args) (o : HttpOutcome) : Nat × Option String :=
  match crawl_site o with
  | Except.error code => (code, none)
  | Except.ok data => (0, some (save_as_markdown data a.dataType))

/-- The state of `Output/<domain>/crawling_results.md` after one run of
`main`, given its state `prior` before the run (`none` means the file does
not exist): a successful run replaces it via `write_text`, a failed run
exits before reaching `save_as_markdown` and leaves it untouched. -/
def run_main_fs (prior : Option String) (a : Args) (o : HttpOutcome) :
    Option String :=
  match run_main a o with
  | (_, some content) => write_text prior content
  | (_, none) => prior

/-! ### `urllib.parse.urlparse(...).netloc` -/

/-- Characters allowed in a URL scheme after the first
(`urllib.parse.scheme_chars`): letters, digits, `+`, `-`, `.`. -/
def schemeChar (c : Char) : Bool :=
  c.isAlpha || c.isDigit || c = '+' || c = '-' || c = '.'

/-- Split a character list at its first `:` (Python `url.find(':')`):
`some (before, after)` when a `:` occurs, `none` otherwise. -/
def splitAtColon : List Char → Option (List Char × List Char)
  | [] => none
  | c :: cs =>
      if c = ':' then some ([], cs)
      else
        match splitAtColon cs with
        | some (s, r) => some (c :: s, r)
        | none => none

/-- The scheme-splitting step of `urllib.parse.urlsplit`: if the string has
a `:` at some position `i > 0`, its first character is a letter, and every
character before the `:` is a scheme character, drop the scheme and the
`:`; otherwise keep the string unchanged. -/
def dropScheme (cs : List Char) : List Char :=
  match splitAtColon cs with
  | some (scheme, rest) =>
      if scheme ≠ [] ∧ (scheme.take 1).all Char.isAlpha ∧ scheme.all schemeChar
      then rest
      else cs
  | none => cs

/-- Whether a character may appear in a netloc: `urlsplit` ends the netloc
at the first `/`, `?` or `#`. -/
def netlocChar (c : Char) : Bool :=
  !(c = '/' || c = '?' || c = '#')

/-- Computes `urllib.parse.urlparse(url).netloc` on the character list: after
removing the scheme, the netloc is present exactly when the remainder
starts with `//`, and extends to the first `/`, `?` or `#`. -/
def netlocChars (cs : List Char) : List Char :=
  match dropScheme cs with
  | '/' :: '/' :: rest => rest.takeWhile netlocChar
  | _ => []

/-- Embeds `urllib.parse.urlparse(url).netloc` (main.py line 107). -/
def netloc (url : String) : String :=
  String.mk (netlocChars url.data)

/-- The output directory `Path("Output") / domain` (main.py lines 107-108). -/
def output_dir (url : String) : String :=
  "Output/" ++ netloc url

/-! ### Helper lemmas -/

/-- Folding string concatenation over a list equals the initial value
followed by the join of the list. -/
theorem foldl_str_append (l : List String) (x : String) :
    l.foldl (fun r s => r ++ s) x = x ++ String.join l := by
  induction l generalizing x with
  | nil => simp [String.join]
  | cons a t ih =>
      show t.foldl (fun r s => r ++ s) (x ++ a) = x ++ String.join (a :: t)
      rw [ih]
      have hj : String.join (a :: t) = a ++ String.join t := by
        show t.foldl (fun r s => r ++ s) ("" ++ a) = a ++ String.join t
        rw [ih]
        simp
      rw [hj, String.append_assoc]

/-- Accumulating string concatenation in a fold is concatenation of the
mapped pieces after the initial value. -/
theorem foldl_append_eq_join (f : String → String) (l : List String)
    (init : String) :
    l.foldl (fun md x => md ++ f x) init = init ++ String.join (l.map f) := by
  rw [← List.foldl_map, foldl_str_append]

theorem getField_single (k : String) (l : List String) :
    getField [(k, l)] k = l := by
  simp [getField, List.lookup]

/-! ### Claims -/

/-- C1: If the single outbound HTTP request fails (transport error, timeout,
or non-success HTTP status), the program terminates with exit status 1 and
no output file `crawling_results.md` is written for that run. -/
theorem request_failure_exits_1_no_output (a : Args) (o : HttpOutcome)
    (h : requestFails o) : run_main a o = (1, none) := by
  rcases h with h | ⟨s, b, rfl, h1, h2⟩
  · subst h; rfl
  · simp [run_main, crawl_site, raise_for_status, h1, h2]

/-- Witness for C1 at a concrete failing outcome (HTTP 404). -/
theorem request_failure_exits_1_no_output_witness :
    requestFails (HttpOutcome.response 404 none) ∧
      run_main ⟨"https://example.com", 1, "links", 10⟩
        (HttpOutcome.response 404 none) = (1, none) :=
  ⟨Or.inr ⟨404, none, rfl, by decide, by decide⟩,
   request_failure_exits_1_no_output _ _
     (Or.inr ⟨404, none, rfl, by decide, by decide⟩)⟩

/-- C2: For every url, depth ≥ 0, requestLimit ≥ 1 and dataType in
{links, text, images}, the outbound GET carries exactly the four query
parameters `url`, `depth`, `dataType`, `limit`, whose values equal the
corresponding CLI inputs, with `requestLimit` sent under the name `limit`. -/
theorem request_params_exact (a : Args) (_hd : 0 ≤ a.depth)
    (_hl : 1 ≤ a.requestLimit)
    (_ht : a.dataType = "links" ∨ a.dataType = "text" ∨ a.dataType = "images") :
    main_request a =
      [("url", ParamValue.pstr a.url),
       ("depth", ParamValue.pint a.depth),
       ("dataType", ParamValue.pstr a.dataType),
       ("limit", ParamValue.pint a.requestLimit)] := rfl

/-- Witness for C2 at concrete CLI inputs. -/
theorem request_params_exact_witness :
    (0 : Int) ≤ 1 ∧ (1 : Int) ≤ 10 ∧
      main_request ⟨"https://example.com", 1, "links", 10⟩ =
        [("url", ParamValue.pstr "https://example.com"),
         ("depth", ParamValue.pint 1),
         ("dataType", ParamValue.pstr "links"),
         ("limit", ParamValue.pint 10)] :=
  ⟨by decide, by decide,
   request_params_exact ⟨"https://example.com", 1, "links", 10⟩
     (by decide) (by decide) (Or.inl rfl)⟩

/-- C3: With `dataType=links`, the rendered content is the fixed headings
followed by exactly one list line `- [url](url)` per URL of the `links`
field, in input order; in particular the two-URL example renders to the
exact document containing the two list lines in order. -/
theorem links_render_one_line_per_url :
    (∀ l : List String,
      save_as_markdown [("links", l)] "links" =
        "# Resultado do Crawling\n\n## Tipo de dados: links\n\n### Links encontrados:\n\n"
          ++ String.join (l.map (fun u => "- [" ++ u ++ "](" ++ u ++ ")\n"))) ∧
    save_as_markdown [("links", ["https://a.com", "https://b.com"])] "links" =
      "# Resultado do Crawling\n\n## Tipo de dados: links\n\n### Links encontrados:\n\n- [https://a.com](https://a.com)\n- [https://b.com](https://b.com)\n" := by
  constructor
  · intro l
    show (getField [("links", l)] "links").foldl _ _ = _
    rw [getField_single, foldl_append_eq_join]
    congr 1
  · rfl

/-- C4: With `dataType=text`, the rendered content is the fixed headings
followed by each entry of the `texts` field as a paragraph followed by a
horizontal-rule line, in input order; in particular for
`{"texts": ["Hello", "World"]}` the document contains `Hello` and `World`
as separate paragraphs separated by a `---` line. -/
theorem texts_render_paragraphs_with_rules :
    (∀ l : List String,
      save_as_markdown [("texts", l)] "text" =
        "# Resultado do Crawling\n\n## Tipo de dados: text\n\n### Textos extraídos:\n\n"
          ++ String.join (l.map (fun t => t ++ "\n\n---\n\n"))) ∧
    save_as_markdown [("texts", ["Hello", "World"])] "text" =
      "# Resultado do Crawling\n\n## Tipo de dados: text\n\n### Textos extraídos:\n\nHello\n\n---\n\nWorld\n\n---\n\n" := by
  constructor
  · intro l
    show (getField [("texts", l)] "texts").foldl _ _ = _
    rw [getField_single, foldl_append_eq_join]
    congr 1
  · rfl

theorem splitAtColon_https (l : List Char) :
    splitAtColon ('h' :: 't' :: 't' :: 'p' :: 's' :: ':' :: l)
      = some (['h', 't', 't', 'p', 's'], l) := rfl

theorem dropScheme_https (l : List Char) :
    dropScheme ('h' :: 't' :: 't' :: 'p' :: 's' :: ':' :: l) = l := rfl

theorem netlocChars_https (l : List Char) :
    netlocChars ('h' :: 't' :: 't' :: 'p' :: 's' :: ':' :: '/' :: '/' :: l)
      = l.takeWhile netlocChar := rfl

/-- Computing the netloc of `https://<host>/<anything>` yields `<host>`
whenever the host contains no `/`, `?` or `#`. -/
theorem netloc_https (host rest : String)
    (h : ∀ c ∈ host.data, netlocChar c = true) :
    netloc ("https://" ++ (host ++ ("/" ++ rest))) = host := by
  show String.mk (netlocChars ("https://" ++ (host ++ ("/" ++ rest))).data) = host
  have hd : ("https://" ++ (host ++ ("/" ++ rest))).data
      = 'h' :: 't' :: 't' :: 'p' :: 's' :: ':' :: '/' :: '/'
          :: (host.data ++ ('/' :: rest.data)) := by
    simp
  rw [hd, netlocChars_https, List.takeWhile_append_of_pos h,
    List.takeWhile_cons_of_neg (by decide), List.append_nil]

/-- C5: The output directory path is `Output/<domain>` where `<domain>` is
only the network-location component of the `--url` argument; two URLs with
the same domain but different path/query components yield the same output
directory. -/
theorem output_dir_domain_only (host r1 r2 : String)
    (h : ∀ c ∈ host.data, netlocChar c = true) :
    (∀ url : String, output_dir url = "Output/" ++ netloc url) ∧
    output_dir ("https://" ++ (host ++ ("/" ++ r1))) = "Output/" ++ host ∧
    output_dir ("https://" ++ (host ++ ("/" ++ r1))) =
      output_dir ("https://" ++ (host ++ ("/" ++ r2))) := by
  refine ⟨fun _ => rfl, ?_, ?_⟩
  · show "Output/" ++ netloc _ = _
    rw [netloc_https host r1 h]
  · show "Output/" ++ netloc _ = "Output/" ++ netloc _
    rw [netloc_https host r1 h, netloc_https host r2 h]

/-- Witness for C5: two URLs on `example.com` with different paths and
queries map to the same output directory `Output/example.com`. -/
theorem output_dir_domain_only_witness :
    (∀ c ∈ "example.com".data, netlocChar c = true) ∧
    output_dir ("https://" ++ ("example.com" ++ ("/" ++ "a?x=1")))
      = "Output/" ++ "example.com" ∧
    output_dir ("https://" ++ ("example.com" ++ ("/" ++ "a?x=1")))
      = output_dir ("https://" ++ ("example.com" ++ ("/" ++ "b/c?y=2"))) :=
  ⟨by decide,
   (output_dir_domain_only "example.com" "a?x=1" "b/c?y=2" (by decide)).2.1,
   (output_dir_domain_only "example.com" "a?x=1" "b/c?y=2" (by decide)).2.2⟩

/-- C6: For every response dict, a selector outside
{links, text, images} writes only the fixed heading, with no body
section. -/
theorem other_selector_heading_only (d : CrawlData) (dt : String)
    (h1 : dt ≠ "links") (h2 : dt ≠ "text") (h3 : dt ≠ "images") :
    save_as_markdown d dt = md_header dt := by
  simp [save_as_markdown, md_header, h1, h2, h3]

/-- Witness for C6 at the concrete selector `other`. -/
theorem other_selector_heading_only_witness :
    save_as_markdown [("links", ["https://a.com"])] "other" = md_header "other" :=
  other_selector_heading_only [("links", ["https://a.com"])] "other"
    (by decide) (by decide) (by decide)

/-- C7: For every selected dataType in {links, text, images}, when the
response lacks the corresponding field the renderer still produces the
title heading and the data-type sub-heading followed by an empty body
section (and, being a total function, does not raise). -/
theorem missing_field_renders_empty_section (d : CrawlData) (dt : String)
    (hdt : dt = "links" ∨ dt = "text" ∨ dt = "images")
    (h : List.lookup (fieldFor dt) d = none) :
    save_as_markdown d dt = md_header dt ++ section_heading dt := by
  rcases hdt with rfl | rfl | rfl
  · replace h : List.lookup "links" d = none := h
    simp [save_as_markdown, md_header, section_heading, getField, h]
  · replace h : List.lookup "texts" d = none := h
    simp [save_as_markdown, md_header, section_heading, getField, h]
  · replace h : List.lookup "images" d = none := h
    simp [save_as_markdown, md_header, section_heading, getField, h]

/-- Witness for C7: a response carrying only `texts`, rendered with
`dataType=links`. -/
theorem missing_field_renders_empty_section_witness :
    List.lookup (fieldFor "links") [("texts", ["Hello"])] = none ∧
    save_as_markdown [("texts", ["Hello"])] "links"
      = md_header "links" ++ section_heading "links" :=
  ⟨by decide,
   missing_field_renders_empty_section [("texts", ["Hello"])] "links"
     (Or.inl rfl) (by decide)⟩

/-- C8: Writing the output file is idempotent with respect to prior file
contents: a successful run leaves `crawling_results.md` holding exactly the
single-run content regardless of what the file held before (overwrite,
never append), and a second identical run leaves the file unchanged. -/
theorem second_run_overwrites (a : Args) (o : HttpOutcome)
    (prior : Option String) (d : CrawlData)
    (h : crawl_site o = Except.ok d) :
    run_main_fs prior a o = some (save_as_markdown d a.dataType) ∧
    run_main_fs (run_main_fs prior a o) a o = run_main_fs prior a o := by
  constructor
  · simp [run_main_fs, run_main, h, write_text]
  · simp [run_main_fs, run_main, h, write_text]

/-- Witness for C8: a successful run over a prior file state. -/
theorem second_run_overwrites_witness :
    crawl_site (HttpOutcome.response 200 (some [("links", ["https://a.com"])]))
      = Except.ok [("links", ["https://a.com"])] ∧
    run_main_fs (some "old contents") ⟨"https://a.com", 1, "links", 10⟩
        (HttpOutcome.response 200 (some [("links", ["https://a.com"])]))
      = some (save_as_markdown [("links", ["https://a.com"])] "links") :=
  ⟨rfl,
   (second_run_overwrites ⟨"https://a.com", 1, "links", 10⟩
     (HttpOutcome.response 200 (some [("links", ["https://a.com"])]))
     (some "old contents") [("links", ["https://a.com"])] rfl).1⟩

/-- C9: For every dataType in {links, text, images}, a response whose
selected field is present and equal to the empty list renders exactly the
same content as the same response with that field absent. -/
theorem empty_field_renders_like_absent (d : CrawlData) (dt : String)
    (hdt : dt = "links" ∨ dt = "text" ∨ dt = "images")
    (h : List.lookup (fieldFor dt) d = none) :
    save_as_markdown ((fieldFor dt, []) :: d) dt = save_as_markdown d dt := by
  rcases hdt with rfl | rfl | rfl
  · replace h : List.lookup "links" d = none := h
    simp [save_as_markdown, fieldFor, getField, List.lookup, h]
  · replace h : List.lookup "texts" d = none := h
    simp [save_as_markdown, fieldFor, getField, List.lookup, h]
  · replace h : List.lookup "images" d = none := h
    simp [save_as_markdown, fieldFor, getField, List.lookup, h]

/-- Witness for C9 at `dataType=links` with an otherwise empty response. -/
theorem empty_field_renders_like_absent_witness :
    List.lookup (fieldFor "links") ([] : CrawlData) = none ∧
    save_as_markdown [(fieldFor "links", [])] "links"
      = save_as_markdown ([] : CrawlData) "links" :=
  ⟨by decide,
   empty_field_renders_like_absent ([] : CrawlData) "links"
     (Or.inl rfl) (by decide)⟩

/-- C10: For every dataType in {links, text, images}, two responses that
agree on the field selected by that dataType render to identical content:
no other field influences the output. -/
theorem render_depends_only_on_selected_field (d1 d2 : CrawlData)
    (dt : String) (hdt : dt = "links" ∨ dt = "text" ∨ dt = "images")
    (h : getField d1 (fieldFor dt) = getField d2 (fieldFor dt)) :
    save_as_markdown d1 dt = save_as_markdown d2 dt := by
  rcases hdt with rfl | rfl | rfl
  · replace h : getField d1 "links" = getField d2 "links" := h
    simp [save_as_markdown, h]
  · replace h : getField d1 "texts" = getField d2 "texts" := h
    simp [save_as_markdown, h]
  · replace h : getField d1 "images" = getField d2 "images" := h
    simp [save_as_markdown, h]

/-- Witness for C10: two responses agreeing on `links` but differing on
`texts` render identically with `dataType=links`. -/
theorem render_depends_only_on_selected_field_witness :
    getField [("links", ["https://a.com"]), ("texts", ["Hello"])] (fieldFor "links")
      = getField [("links", ["https://a.com"])] (fieldFor "links") ∧
    save_as_markdown [("links", ["https://a.com"]), ("texts", ["Hello"])] "links"
      = save_as_markdown [("links", ["https://a.com"])] "links" :=
  ⟨by decide,
   render_depends_only_on_selected_field
     [("links", ["https://a.com"]), ("texts", ["Hello"])]
     [("links", ["https://a.com"])] "links" (Or.inl rfl) (by decide)⟩

end FireCrawl
